import Mathlib

/-!
Shallow embedding of the offline-cache service workers of the GadaOromo
repository: `src/static/service-worker.js` (cache generation "gada-v6") and
`src/static/sw.js` (cache generation "gada-v3").  Requests, responses and the
Cache Storage API are modelled as plain data; the network is a function from
requests to an optional response (`none` models a rejected fetch, i.e. a
network failure; a resolved response of any HTTP status is `some`).  Each
fetch-event listener is translated branch by branch into a pure function that
returns the chosen result together with the cache state after any writes and
flags recording whether the handler itself issued a network fetch and whether
it read any cache.
-/

namespace SWModel

/-- An HTTP request as seen by the fetch listener: method, origin, path
(pathname of the URL) and mode (`"navigate"` for top-level page loads). -/
structure Request where
  method : String
  origin : String
  path : String
  mode : String
deriving DecidableEq

/-- A response snapshot: HTTP status and body. -/
structure Response where
  status : Nat
  body : String
deriving DecidableEq

/-- `Response.ok` of the fetch API: status in the 2xx range. -/
def Response.ok (r : Response) : Bool :=
  decide (200 ≤ r.status) && decide (r.status ≤ 299)

/-- `url.pathname.startsWith(p)` of JS: a plain string-prefix test, phrased
over the character lists so that it evaluates by kernel reduction. -/
def strStartsWith (s p : String) : Bool :=
  p.data.isPrefixOf s.data

/-- One cache store: an association list from request URL (path) to the
stored response. -/
abbrev Store := List (String × Response)

/-- The whole Cache Storage: named cache stores in creation order. -/
abbrev CacheStorage := List (String × Store)

/-- The network: `some r` when `fetch` resolves with response `r` (any
status), `none` when `fetch` rejects (offline / network error). -/
def Network := Request → Option Response

/-- `Cache.match`: look a URL up in one store. -/
def storeMatch : Store → String → Option Response
  | [], _ => none
  | (p, r) :: rest, path => if p = path then some r else storeMatch rest path

/-- `Cache.put`: overwrite or append the entry for a URL in one store. -/
def storePut : Store → String → Response → Store
  | [], path, r => [(path, r)]
  | (p, r0) :: rest, path, r =>
      if p = path then (path, r) :: rest else (p, r0) :: storePut rest path r

/-- `caches.match(req)`: search every cache store in order. -/
def cachesMatch : CacheStorage → String → Option Response
  | [], _ => none
  | (_, s) :: rest, path =>
      match storeMatch s path with
      | some r => some r
      | none => cachesMatch rest path

/-- The store held under a cache name (empty when the cache is absent). -/
def findStore : CacheStorage → String → Store
  | [], _ => []
  | (n, s) :: rest, name => if n = name then s else findStore rest name

/-- `caches.open(name)` alone: create the named cache if absent. -/
def ensureCache : CacheStorage → String → CacheStorage
  | [], name => [(name, [])]
  | (n, s) :: rest, name =>
      if n = name then (n, s) :: rest else (n, s) :: ensureCache rest name

/-- `caches.open(name)` followed by `cache.put(req, res)`: write one entry
into the named cache, creating the cache if absent. -/
def putInCache : CacheStorage → String → String → Response → CacheStorage
  | [], name, path, r => [(name, storePut [] path r)]
  | (n, s) :: rest, name, path, r =>
      if n = name then (n, storePut s path r) :: rest
      else (n, s) :: putInCache rest name path r

/-- `caches.open(name)` followed by `cache.match(req)`: look a URL up in the
one named cache only. -/
def matchInCache (cs : CacheStorage) (name path : String) : Option Response :=
  storeMatch (findStore cs name) path

/-- What the fetch listener does with a request: leave it untouched
(`passThrough`, no `respondWith` call — the browser performs its default
fetch), respond with a value (`respond none` models `respondWith` resolving
with `undefined`), or `failure` when the promise given to `respondWith`
rejects. -/
inductive FetchResult where
  | passThrough : FetchResult
  | respond : Option Response → FetchResult
  | failure : FetchResult
deriving DecidableEq

/-- Outcome of one run of a fetch listener: the result delivered, the cache
storage after any writes, whether the handler itself called `fetch`, and
whether it performed any cache read (`cache.match` / `caches.match`). -/
structure FetchOutcome where
  result : FetchResult
  caches : CacheStorage
  netFetch : Bool
  cacheRead : Bool
deriving DecidableEq

/-- The request `cache.addAll` issues for one manifest URL. -/
def coreReq (origin path : String) : Request :=
  ⟨"GET", origin, path, "no-cors"⟩

/-- `cache.addAll(urls)` (web Cache API): fetch every URL; reject if any
fetch rejects or resolves with a non-ok (outside 2xx) status; otherwise store
every response.  `none` models the rejection (nothing is committed). -/
def addAll (net : Network) (origin : String) : Store → List String → Option Store
  | s, [] => some s
  | s, u :: rest =>
      match net (coreReq origin u) with
      | some r => if r.ok then addAll net origin (storePut s u r) rest else none
      | none => none

/-- Whether the install-time fetch of one manifest URL succeeds with an ok
status. -/
def fetchOk (net : Network) (origin u : String) : Bool :=
  match net (coreReq origin u) with
  | some r => r.ok
  | none => false

/-- Whether an optional cache entry holds an ok (2xx) response. -/
def entryOk : Option Response → Bool
  | some r => r.ok
  | none => false

/-- `event.data` of a message event, as the listeners inspect it. -/
structure MessageData where
  type : String
deriving DecidableEq

end SWModel

namespace SW

/-! `src/static/service-worker.js`, cache generation "gada-v6". -/

open SWModel

def CACHE_NAME : String := "gada-v6"

def CORE_ASSETS : List String :=
  [ "/",
    "/translate",
    "/learn",
    "/support",
    "/offline",
    "/static/style.css",
    "/static/pwa-ui.js",
    "/static/audio.js",
    "/static/recorder.js",
    "/manifest.webmanifest",
    "/static/icons/icon-192.png",
    "/static/icons/icon-512.png",
    "/static/icons/apple-touch-icon.png",
    "/static/icons/favicon-32x32.png",
    "/static/icons/favicon-16x16.png" ]

/-- The install listener's `waitUntil` work:
`caches.open(CACHE_NAME).then(cache => cache.addAll(CORE_ASSETS))` plus the
OFFLINE_READY client notification.  The store argument is the current content
of the `CACHE_NAME` cache (empty on a fresh install); the result is the store
after `addAll`, or `none` when `addAll` rejects (install fails). -/
def install (selfOrigin : String) (net : Network) (s : Store) : Option Store :=
  addAll net selfOrigin s CORE_ASSETS

/-- Effects of dispatching the install event: the `waitUntil` outcome, whether
the OFFLINE_READY broadcast went out (only after `addAll` resolves), and
whether `self.skipWaiting()` was called.  The listener calls `skipWaiting()`
unconditionally, outside `waitUntil`, so the flag is true in both branches. -/
structure InstallOutcome where
  newStore : Option Store
  offlineReadyNotified : Bool
  skipWaitingCalled : Bool
deriving DecidableEq

def installEvent (selfOrigin : String) (net : Network) (s : Store) : InstallOutcome :=
  match install selfOrigin net s with
  | some s' => ⟨some s', true, true⟩
  | none => ⟨none, false, true⟩

/-- The message listener: `self.skipWaiting()` is called exactly when
`event.data && event.data.type === "SKIP_WAITING"`. -/
def messageListener : Option MessageData → Bool
  | some m => if m.type = "SKIP_WAITING" then true else false
  | none => false

/-- Browser worker lifecycle rule (platform semantics, not repository code):
an installed worker waiting behind an old controller is promoted to active
iff `skipWaiting()` has been called — during its install event or by a later
message event. -/
def promotesToActive (selfOrigin : String) (net : Network) (s : Store)
    (msgs : List (Option MessageData)) : Bool :=
  (installEvent selfOrigin net s).skipWaitingCalled || msgs.any messageListener

/-- The activate listener: delete every cache whose key differs from
`CACHE_NAME`. -/
def activate : CacheStorage → CacheStorage
  | [] => []
  | (n, s) :: rest => if n = CACHE_NAME then (n, s) :: activate rest else activate rest

/-- The fetch listener of service-worker.js (gada-v6), branch by branch:
non-GET and cross-origin and `/api/` / `/recorder/api/` requests return
without `respondWith`; navigations are network-first with cache then
`/offline` fallback, storing every resolved response; `/static/` paths and
`/manifest.webmanifest` are cache-first, storing the filled response; any
other GET is network with cache fallback.  `putOk` models whether the
fire-and-forget `cache.put` succeeds (its promise is never awaited). -/
def handleFetch (selfOrigin : String) (net : Network) (putOk : Bool)
    (cs : CacheStorage) (req : Request) : FetchOutcome :=
  if req.method ≠ "GET" then
    ⟨.passThrough, cs, false, false⟩
  else if req.origin ≠ selfOrigin then
    ⟨.passThrough, cs, false, false⟩
  else if strStartsWith req.path "/api/" || strStartsWith req.path "/recorder/api/" then
    ⟨.passThrough, cs, false, false⟩
  else if req.mode = "navigate" then
    match net req with
    | some res =>
        ⟨.respond (some res),
          if putOk then putInCache cs CACHE_NAME req.path res else ensureCache cs CACHE_NAME,
          true, false⟩
    | none =>
        match cachesMatch cs req.path with
        | some cached => ⟨.respond (some cached), cs, true, true⟩
        | none => ⟨.respond (cachesMatch cs "/offline"), cs, true, true⟩
  else if strStartsWith req.path "/static/" || req.path = "/manifest.webmanifest" then
    match cachesMatch cs req.path with
    | some cached => ⟨.respond (some cached), cs, false, true⟩
    | none =>
        match net req with
        | some res =>
            ⟨.respond (some res),
              if putOk then putInCache cs CACHE_NAME req.path res else ensureCache cs CACHE_NAME,
              true, true⟩
        | none => ⟨.failure, cs, true, true⟩
  else
    match net req with
    | some res => ⟨.respond (some res), cs, true, false⟩
    | none => ⟨.respond (cachesMatch cs req.path), cs, true, true⟩

end SW

namespace Swjs

/-! `src/static/sw.js`, cache generation "gada-v3" (two stores per
generation: `gada-v3-static` and `gada-v3-pages`). -/

open SWModel

def CACHE_VERSION : String := "gada-v3"

def STATIC_CACHE : String := CACHE_VERSION ++ "-static"

def PAGE_CACHE : String := CACHE_VERSION ++ "-pages"

def OFFLINE_URL : String := "/offline"

def CORE_ASSETS : List String :=
  [ "/",
    "/translate",
    "/learn",
    "/support",
    OFFLINE_URL,
    "/static/style.css",
    "/static/pwa-ui.js",
    "/static/manifest.webmanifest",
    "/static/icons/icon-192.png",
    "/static/icons/icon-512.png" ]

/-- The message listener of sw.js: identical shape to service-worker.js's. -/
def messageListener : Option MessageData → Bool
  | some m => if m.type = "SKIP_WAITING" then true else false
  | none => false

/-- The install listener's `waitUntil` work:
`caches.open(STATIC_CACHE).then(cache => cache.addAll(CORE_ASSETS))`. -/
def install (selfOrigin : String) (net : Network) (s : Store) : Option Store :=
  addAll net selfOrigin s CORE_ASSETS

/-- The activate listener: delete every cache whose key does not start with
`CACHE_VERSION` (both per-generation stores of the current version are
kept). -/
def activate : CacheStorage → CacheStorage
  | [] => []
  | (n, s) :: rest =>
      if strStartsWith n CACHE_VERSION then (n, s) :: activate rest else activate rest

/-- `cacheFirst(req)` of sw.js: `caches.match` over all stores; on a hit
return it with no fetch; on a miss `await fetch(req)` (a rejection propagates
and fails the `respondWith` promise), then fire-and-forget
`cache.put(req, res.clone())` into `STATIC_CACHE` with no status check, and
return the response. -/
def cacheFirst (net : Network) (putOk : Bool) (cs : CacheStorage) (req : Request) :
    FetchOutcome :=
  match cachesMatch cs req.path with
  | some cached => ⟨.respond (some cached), cs, false, true⟩
  | none =>
      match net req with
      | some res =>
          ⟨.respond (some res),
            if putOk then putInCache cs STATIC_CACHE req.path res
            else ensureCache cs STATIC_CACHE,
            true, true⟩
      | none => ⟨.failure, cs, true, true⟩

/-- `staleWhileRevalidate(req)` of sw.js: open `PAGE_CACHE`, read the cached
entry for the URL from that cache, start the network fetch regardless (the
background revalidation stores status-200 responses into `PAGE_CACHE`), and
return `cached || (await fetchPromise) || (await caches.match(OFFLINE_URL))`.
A cached entry is returned even when the network fetch succeeds. -/
def staleWhileRevalidate (net : Network) (putOk : Bool) (cs : CacheStorage)
    (req : Request) : FetchOutcome :=
  match net req with
  | some res =>
      match matchInCache (ensureCache cs PAGE_CACHE) PAGE_CACHE req.path with
      | some c =>
          ⟨.respond (some c),
            if putOk ∧ res.status = 200 then
              putInCache (ensureCache cs PAGE_CACHE) PAGE_CACHE req.path res
            else ensureCache cs PAGE_CACHE, true, true⟩
      | none =>
          ⟨.respond (some res),
            if putOk ∧ res.status = 200 then
              putInCache (ensureCache cs PAGE_CACHE) PAGE_CACHE req.path res
            else ensureCache cs PAGE_CACHE, true, true⟩
  | none =>
      match matchInCache (ensureCache cs PAGE_CACHE) PAGE_CACHE req.path with
      | some c => ⟨.respond (some c), ensureCache cs PAGE_CACHE, true, true⟩
      | none =>
          ⟨.respond (cachesMatch (ensureCache cs PAGE_CACHE) OFFLINE_URL),
            ensureCache cs PAGE_CACHE, true, true⟩

/-- `networkFirst(req)` of sw.js: open `PAGE_CACHE`, `await fetch(req)`; on
success store it into `PAGE_CACHE` when the status is 200 (fire-and-forget)
and return it; on a rejected fetch fall back to the `PAGE_CACHE` entry for
the URL, then to `caches.match(OFFLINE_URL)`. -/
def networkFirst (net : Network) (putOk : Bool) (cs : CacheStorage) (req : Request) :
    FetchOutcome :=
  match net req with
  | some res =>
      ⟨.respond (some res),
        if putOk ∧ res.status = 200 then
          putInCache (ensureCache cs PAGE_CACHE) PAGE_CACHE req.path res
        else ensureCache cs PAGE_CACHE,
        true, false⟩
  | none =>
      match matchInCache (ensureCache cs PAGE_CACHE) PAGE_CACHE req.path with
      | some c => ⟨.respond (some c), ensureCache cs PAGE_CACHE, true, true⟩
      | none =>
          ⟨.respond (cachesMatch (ensureCache cs PAGE_CACHE) OFFLINE_URL),
            ensureCache cs PAGE_CACHE, true, true⟩

/-- The fetch listener of sw.js: cross-origin and non-GET requests return
without `respondWith`; `/admin` and `/dashboard` prefixes go `networkFirst`;
the offline page, `/static/` and `/uploads/` prefixes go `cacheFirst`;
navigations go `staleWhileRevalidate`; everything else `networkFirst`. -/
def handleFetch (selfOrigin : String) (net : Network) (putOk : Bool)
    (cs : CacheStorage) (req : Request) : FetchOutcome :=
  if req.origin ≠ selfOrigin then
    ⟨.passThrough, cs, false, false⟩
  else if req.method ≠ "GET" then
    ⟨.passThrough, cs, false, false⟩
  else if strStartsWith req.path "/admin" || strStartsWith req.path "/dashboard" then
    networkFirst net putOk cs req
  else if req.path = OFFLINE_URL then
    cacheFirst net putOk cs req
  else if strStartsWith req.path "/static/" then
    cacheFirst net putOk cs req
  else if strStartsWith req.path "/uploads/" then
    cacheFirst net putOk cs req
  else if req.mode = "navigate" then
    staleWhileRevalidate net putOk cs req
  else
    networkFirst net putOk cs req

end Swjs

namespace SWModel

theorem storeMatch_storePut_self (s : Store) (p : String) (r : Response) :
    storeMatch (storePut s p r) p = some r := by
  induction s with
  | nil => simp [storePut, storeMatch]
  | cons e rest ih =>
      obtain ⟨q, r0⟩ := e
      by_cases h : q = p
      · simp [storePut, storeMatch, h]
      · simp [storePut, storeMatch, h, ih]

theorem storeMatch_storePut_other (s : Store) (p q : String) (r : Response)
    (hqp : q ≠ p) : storeMatch (storePut s p r) q = storeMatch s q := by
  induction s with
  | nil => simp [storePut, storeMatch, Ne.symm hqp]
  | cons e rest ih =>
      obtain ⟨n, r0⟩ := e
      by_cases h : n = p
      · subst h
        simp [storePut, storeMatch, Ne.symm hqp]
      · simp [storePut, storeMatch, h, ih]

theorem addAll_preserves (net : Network) (o : String) (urls : List String) :
    ∀ s s' : Store, addAll net o s urls = some s' →
      ∀ p, p ∉ urls → storeMatch s' p = storeMatch s p := by
  induction urls with
  | nil =>
      intro s s' h p _
      simp [addAll] at h
      subst h; rfl
  | cons u rest ih =>
      intro s s' h p hp
      simp only [addAll] at h
      cases hnet : net (coreReq o u) with
      | none => simp [hnet] at h
      | some r =>
          simp only [hnet] at h
          by_cases hok : r.ok = true
          · simp only [hok, if_true] at h
            have hpu : p ≠ u := by
              rintro rfl; exact hp (List.mem_cons_self _ _)
            have hpr : p ∉ rest := fun hh => hp (List.mem_cons_of_mem _ hh)
            rw [ih (storePut s u r) s' h p hpr,
                storeMatch_storePut_other s u p r hpu]
          · simp [hok] at h

theorem addAll_entryOk (net : Network) (o : String) (urls : List String) :
    ∀ s s' : Store, addAll net o s urls = some s' →
      ∀ u ∈ urls, entryOk (storeMatch s' u) = true := by
  induction urls with
  | nil => intro s s' _ u hu; cases hu
  | cons v rest ih =>
      intro s s' h u hu
      simp only [addAll] at h
      cases hnet : net (coreReq o v) with
      | none => simp [hnet] at h
      | some r =>
          simp only [hnet] at h
          by_cases hok : r.ok = true
          · simp only [hok, if_true] at h
            rcases List.mem_cons.mp hu with hv | hr
            · subst hv
              by_cases hur : u ∈ rest
              · exact ih _ _ h u hur
              · rw [addAll_preserves net o rest _ _ h u hur,
                    storeMatch_storePut_self]
                simpa [entryOk] using hok
            · exact ih _ _ h u hr
          · simp [hok] at h

theorem addAll_isSome_fetchOk (net : Network) (o : String) (urls : List String) :
    ∀ s s' : Store, addAll net o s urls = some s' →
      ∀ u ∈ urls, fetchOk net o u = true := by
  induction urls with
  | nil => intro s s' _ u hu; cases hu
  | cons v rest ih =>
      intro s s' h u hu
      simp only [addAll] at h
      cases hnet : net (coreReq o v) with
      | none => simp [hnet] at h
      | some r =>
          simp only [hnet] at h
          by_cases hok : r.ok = true
          · simp only [hok, if_true] at h
            rcases List.mem_cons.mp hu with hv | hr
            · subst hv; simp [fetchOk, hnet, hok]
            · exact ih _ _ h u hr
          · simp [hok] at h

theorem addAll_fail (net : Network) (o : String) (urls : List String) (s : Store)
    (u : String) (hu : u ∈ urls) (hf : fetchOk net o u = false) :
    addAll net o s urls = none := by
  cases hres : addAll net o s urls with
  | none => rfl
  | some s' =>
      have := addAll_isSome_fetchOk net o urls s s' hres u hu
      rw [hf] at this
      cases this

end SWModel

namespace Scenario

/-! Concrete requests, responses, networks and cache states used to settle
the claims on explicit inputs. -/

open SWModel

def origin : String := "https://gadaoromo.app"

/-- A network on which every fetch resolves with status 200. -/
def netOk : Network := fun _ => some ⟨200, "ok"⟩

/-- A network on which every fetch resolves with status 201: a successful
(2xx) status that is not 200. -/
def net201 : Network := fun _ => some ⟨201, "created"⟩

/-- A network on which every fetch resolves with status 404. -/
def net404 : Network := fun _ => some ⟨404, "not found"⟩

/-- A network on which every fetch rejects (offline). -/
def netDown : Network := fun _ => none

/-- A network serving a fresh copy of every page. -/
def netFresh : Network := fun _ => some ⟨200, "fresh"⟩

def postReq : Request := ⟨"POST", origin, "/recorder/api/upload", "cors"⟩

def apiReq : Request := ⟨"GET", origin, "/api/words", "cors"⟩

def adminReq : Request := ⟨"GET", origin, "/admin/words", "navigate"⟩

def navReq : Request := ⟨"GET", origin, "/translate", "navigate"⟩

def staticReq : Request := ⟨"GET", origin, "/static/app.css", "no-cors"⟩

def adminCached : Response := ⟨200, "cached admin page"⟩

def stale : Response := ⟨200, "stale"⟩

def cssCached : Response := ⟨200, "css"⟩

/-- A cache state whose page cache holds an entry for `/admin/words`. -/
def pageCacheWithAdmin : CacheStorage :=
  [(Swjs.PAGE_CACHE, [("/admin/words", adminCached)])]

/-- A cache state whose page cache holds a stale entry for `/translate`. -/
def pageCacheWithTranslate : CacheStorage :=
  [(Swjs.PAGE_CACHE, [("/translate", stale)])]

/-- A gada-v6 cache state with a cached copy of `/static/app.css`. -/
def staticCachedCs : CacheStorage :=
  [(SW.CACHE_NAME, [("/static/app.css", cssCached)])]

/-- Caches from three generations, as before an activation. -/
def demoCaches : CacheStorage :=
  [(SW.CACHE_NAME, []), ("gada-v5", []), (Swjs.STATIC_CACHE, [])]

/-- The gada-v6 store after a successful install against `netOk`. -/
def trialStore : Store := (SW.install origin netOk []).getD []

/-- The gada-v3 static store after a successful install against `netOk`. -/
def trialStoreSwjs : Store := (Swjs.install origin netOk []).getD []

/-- The status of the entry stored for `u` after a gada-v6 install against
`net` from an empty store: `none` when the install rejects or the entry is
absent. -/
def installEntryStatus (net : Network) (u : String) : Option Nat :=
  match SW.install origin net [] with
  | some s => Option.map Response.status (storeMatch s u)
  | none => none

end Scenario

open SWModel

/-- C1: for every request whose method is not GET, both fetch listeners pass
the request through with no cache read and no cache write: no `respondWith`,
`cacheRead = false`, and the cache storage is returned unchanged. -/
theorem c1_nonGet_never_touches_cache (o : String) (net : Network) (putOk : Bool)
    (cs : CacheStorage) (req : Request) (h : req.method ≠ "GET") :
    SW.handleFetch o net putOk cs req = ⟨.passThrough, cs, false, false⟩ ∧
    Swjs.handleFetch o net putOk cs req = ⟨.passThrough, cs, false, false⟩ := by
  constructor
  · simp [SW.handleFetch, h]
  · by_cases ho : req.origin = o <;> simp [Swjs.handleFetch, h, ho]

/-- C1 witness: a POST to the recorder upload API is passed through by both
listeners with the cache untouched. -/
theorem c1_witness :
    SW.handleFetch Scenario.origin Scenario.netOk true [] Scenario.postReq =
      ⟨.passThrough, [], false, false⟩ ∧
    Swjs.handleFetch Scenario.origin Scenario.netOk true [] Scenario.postReq =
      ⟨.passThrough, [], false, false⟩ :=
  c1_nonGet_never_touches_cache Scenario.origin Scenario.netOk true [] Scenario.postReq
    (by decide)

/-- C2 counterexample: in sw.js, a GET to the excluded prefix `/admin` whose
network fetch fails is answered from the page cache — the previously stored
entry for `/admin/words` is returned — so the excluded-prefix branch does
return a cached response when one exists, contrary to the claim. -/
theorem c2_counterexample :
    (Swjs.handleFetch Scenario.origin Scenario.netDown true
        Scenario.pageCacheWithAdmin Scenario.adminReq).result =
      .respond (some Scenario.adminCached) := by
  decide

/-- sw.js's networkFirst always issues the network fetch, whatever its
outcome. -/
theorem swjs_networkFirst_netFetch (net : Network) (putOk : Bool)
    (cs : CacheStorage) (req : Request) :
    (Swjs.networkFirst net putOk cs req).netFetch = true := by
  unfold Swjs.networkFirst
  cases net req with
  | some r => rfl
  | none =>
      cases matchInCache (ensureCache cs Swjs.PAGE_CACHE) Swjs.PAGE_CACHE req.path <;> rfl

/-- C2 amended: excluded-prefix GETs never serve from cache while the network
answers. service-worker.js passes `/api/` and `/recorder/api/` requests
through untouched (no respondWith, no cache read or write); sw.js handles
`/admin` / `/dashboard` GETs network-first, always issuing the fetch and
returning the network response whenever it resolves — a cached copy is
returned only when the fetch rejects. -/
theorem c2_excluded_prefix_goes_to_network (o : String) (net : Network)
    (putOk : Bool) (cs : CacheStorage) (reqA reqB : Request) (res : Response)
    (hA : (strStartsWith reqA.path "/api/" ||
      strStartsWith reqA.path "/recorder/api/") = true)
    (hBo : reqB.origin = o) (hBm : reqB.method = "GET")
    (hB : (strStartsWith reqB.path "/admin" ||
      strStartsWith reqB.path "/dashboard") = true) :
    SW.handleFetch o net putOk cs reqA = ⟨.passThrough, cs, false, false⟩ ∧
    (Swjs.handleFetch o net putOk cs reqB).netFetch = true ∧
    (net reqB = some res →
      (Swjs.handleFetch o net putOk cs reqB).result = .respond (some res)) := by
  refine ⟨?_, ?_, ?_⟩
  · by_cases hm : reqA.method = "GET" <;>
      by_cases ho : reqA.origin = o <;>
      simp [SW.handleFetch, hm, ho, hA]
  · simp [Swjs.handleFetch, hBo, hBm, hB, swjs_networkFirst_netFetch]
  · intro hnet
    simp [Swjs.handleFetch, hBo, hBm, hB, Swjs.networkFirst, hnet]

/-- C2 witness: an `/api/` GET is passed through by service-worker.js, and an
`/admin` GET in sw.js always reaches the network and, online, returns the
network's response. -/
theorem c2_witness :
    SW.handleFetch Scenario.origin Scenario.netOk true [] Scenario.apiReq =
      ⟨.passThrough, [], false, false⟩ ∧
    (Swjs.handleFetch Scenario.origin Scenario.netOk true []
        Scenario.adminReq).netFetch = true ∧
    (Swjs.handleFetch Scenario.origin Scenario.netOk true []
        Scenario.adminReq).result = .respond (some ⟨200, "ok"⟩) := by
  have h := c2_excluded_prefix_goes_to_network Scenario.origin Scenario.netOk true []
    Scenario.apiReq Scenario.adminReq ⟨200, "ok"⟩
    (by decide) (by decide) (by decide) (by decide)
  exact ⟨h.1, h.2.1, h.2.2 rfl⟩

/-- C3 counterexample: in sw.js a same-origin GET navigation to `/translate`
with a stale page-cache entry and a working network returns the stale cached
entry, not the network response — navigations there are
stale-while-revalidate, not network-first as claimed. -/
theorem c3_counterexample :
    (Swjs.handleFetch Scenario.origin Scenario.netFresh true
        Scenario.pageCacheWithTranslate Scenario.navReq).result =
      .respond (some Scenario.stale) ∧
    Scenario.netFresh Scenario.navReq = some ⟨200, "fresh"⟩ := by
  exact ⟨by decide, rfl⟩

/-- C3 amended: in service-worker.js same-origin GET navigations are
network-first exactly as claimed — network response stored and returned on
success; on failure the cached entry for the URL, else the cached `/offline`
page.  In sw.js navigations are stale-while-revalidate: a page-cache entry
for the URL is returned whenever present (even when the network answers);
only otherwise the network response, and on network failure with no cached
entry the cached offline page.  In both workers a navigation that hits a
network failure with no prior cache entry for its URL yields the offline
fallback's cached content. -/
theorem c3_navigation_policy (o : String) (net : Network) (cs : CacheStorage)
    (reqA reqB : Request) (res : Response)
    (hAm : reqA.method = "GET") (hAo : reqA.origin = o)
    (hAapi : (strStartsWith reqA.path "/api/" ||
      strStartsWith reqA.path "/recorder/api/") = false)
    (hAnav : reqA.mode = "navigate")
    (hBo : reqB.origin = o) (hBm : reqB.method = "GET")
    (hBadm : (strStartsWith reqB.path "/admin" ||
      strStartsWith reqB.path "/dashboard") = false)
    (hBoff : reqB.path ≠ Swjs.OFFLINE_URL)
    (hBst : strStartsWith reqB.path "/static/" = false)
    (hBup : strStartsWith reqB.path "/uploads/" = false)
    (hBnav : reqB.mode = "navigate") :
    (net reqA = some res →
      SW.handleFetch o net true cs reqA =
        ⟨.respond (some res), putInCache cs SW.CACHE_NAME reqA.path res,
          true, false⟩) ∧
    (net reqA = none → ∀ c, cachesMatch cs reqA.path = some c →
      (SW.handleFetch o net true cs reqA).result = .respond (some c)) ∧
    (net reqA = none → cachesMatch cs reqA.path = none →
      (SW.handleFetch o net true cs reqA).result =
        .respond (cachesMatch cs "/offline")) ∧
    (∀ c, matchInCache (ensureCache cs Swjs.PAGE_CACHE) Swjs.PAGE_CACHE reqB.path =
        some c →
      (Swjs.handleFetch o net true cs reqB).result = .respond (some c)) ∧
    (net reqB = none →
      matchInCache (ensureCache cs Swjs.PAGE_CACHE) Swjs.PAGE_CACHE reqB.path = none →
      (Swjs.handleFetch o net true cs reqB).result =
        .respond (cachesMatch (ensureCache cs Swjs.PAGE_CACHE) Swjs.OFFLINE_URL)) ∧
    (net reqB = some res →
      matchInCache (ensureCache cs Swjs.PAGE_CACHE) Swjs.PAGE_CACHE reqB.path = none →
      (Swjs.handleFetch o net true cs reqB).result = .respond (some res)) := by
  refine ⟨?_, ?_, ?_, ?_, ?_, ?_⟩
  · intro hnet
    simp [SW.handleFetch, hAm, hAo, hAapi, hAnav, hnet]
  · intro hnet c hc
    simp [SW.handleFetch, hAm, hAo, hAapi, hAnav, hnet, hc]
  · intro hnet hc
    simp [SW.handleFetch, hAm, hAo, hAapi, hAnav, hnet, hc]
  · intro c hc
    cases hnet : net reqB <;>
      simp [Swjs.handleFetch, hBo, hBm, hBadm, hBoff, hBst, hBup, hBnav,
        Swjs.staleWhileRevalidate, hnet, hc]
  · intro hnet hc
    simp [Swjs.handleFetch, hBo, hBm, hBadm, hBoff, hBst, hBup, hBnav,
      Swjs.staleWhileRevalidate, hnet, hc]
  · intro hnet hc
    simp [Swjs.handleFetch, hBo, hBm, hBadm, hBoff, hBst, hBup, hBnav,
      Swjs.staleWhileRevalidate, hnet, hc]

/-- C3 witness: a `/translate` navigation against a dead network and empty
caches falls back, in both workers, to the (here absent) offline cache
entries, and against a working network with no page-cache entry sw.js
returns the network response; the hypotheses of the policy theorem are
discharged on this concrete request. -/
theorem c3_witness :
    (Scenario.netDown Scenario.navReq = some ⟨200, "fresh"⟩ →
      SW.handleFetch Scenario.origin Scenario.netDown true [] Scenario.navReq =
        ⟨.respond (some ⟨200, "fresh"⟩),
          putInCache [] SW.CACHE_NAME "/translate" ⟨200, "fresh"⟩, true, false⟩) ∧
    (SW.handleFetch Scenario.origin Scenario.netDown true [] Scenario.navReq).result =
      .respond (cachesMatch [] "/offline") ∧
    (Swjs.handleFetch Scenario.origin Scenario.netDown true [] Scenario.navReq).result =
      .respond (cachesMatch (ensureCache [] Swjs.PAGE_CACHE) Swjs.OFFLINE_URL) ∧
    (Swjs.handleFetch Scenario.origin Scenario.netFresh true [] Scenario.navReq).result =
      .respond (some ⟨200, "fresh"⟩) := by
  have h := c3_navigation_policy Scenario.origin Scenario.netDown []
    Scenario.navReq Scenario.navReq ⟨200, "fresh"⟩
    (by decide) (by decide) (by decide) (by decide) (by decide) (by decide)
    (by decide) (by decide) (by decide) (by decide) (by decide)
  have h2 := c3_navigation_policy Scenario.origin Scenario.netFresh []
    Scenario.navReq Scenario.navReq ⟨200, "fresh"⟩
    (by decide) (by decide) (by decide) (by decide) (by decide) (by decide)
    (by decide) (by decide) (by decide) (by decide) (by decide)
  exact ⟨h.1, h.2.2.1 rfl rfl, h.2.2.2.2.1 rfl rfl, h2.2.2.2.2.2 rfl (by decide)⟩

/-- C4 counterexample: with a fully successful install and no message ever
received, the freshly installed worker is still promoted to active — the
install listener itself calls `self.skipWaiting()` unconditionally, so the
worker never holds in the waiting state. -/
theorem c4_counterexample :
    SW.promotesToActive Scenario.origin Scenario.netOk [] [] = true := by
  decide

/-- C4 amended: the install listener of service-worker.js calls
`self.skipWaiting()` unconditionally (whether or not the pre-cache work
succeeds), so a newly installed worker promotes itself to active immediately
instead of holding in a waiting state; independently, the message listener
triggers `skipWaiting` exactly on a `{type: "SKIP_WAITING"}` message. -/
theorem c4_skip_waiting_unconditional (o : String) (net : Network) (s : Store)
    (msgs : List (Option MessageData)) (m : MessageData) :
    SW.promotesToActive o net s msgs = true ∧
    (SW.installEvent o net s).skipWaitingCalled = true ∧
    (SW.messageListener (some m) = true ↔ m.type = "SKIP_WAITING") ∧
    SW.messageListener none = false := by
  have hskip : (SW.installEvent o net s).skipWaitingCalled = true := by
    unfold SW.installEvent
    cases SW.install o net s <;> rfl
  refine ⟨?_, hskip, ?_, rfl⟩
  · simp [SW.promotesToActive, hskip]
  · by_cases h : m.type = "SKIP_WAITING" <;> simp [SW.messageListener, h]

/-- C5 counterexample: the static branch of service-worker.js (gada-v6)
stores a resolved 404 response with `cache.put` — after a cache miss on
`/static/app.css` against a network answering 404, the 404 entry is in the
cache. -/
theorem c5_counterexample :
    SW.handleFetch Scenario.origin Scenario.net404 true [] Scenario.staticReq =
      ⟨.respond (some ⟨404, "not found"⟩),
        [(SW.CACHE_NAME, [("/static/app.css", ⟨404, "not found"⟩)])],
        true, true⟩ := by
  decide

/-- C5 amended: cache writes happen only for GET requests (for a non-GET
request both handlers leave the cache storage unchanged), but only sw.js's
networkFirst and staleWhileRevalidate gate the write on a status of 200; the
navigation and static branches of service-worker.js (gada-v6) and sw.js's
cacheFirst store whatever response the fetch resolves with, whether or not
its status is 2xx. -/
theorem c5_writes_not_status_gated (o : String) (net : Network) (putOk : Bool)
    (cs : CacheStorage) (req reqN reqP : Request) (res : Response)
    (hnet : net req = some res)
    (hm : req.method = "GET") (ho : req.origin = o)
    (hapi : (strStartsWith req.path "/api/" ||
      strStartsWith req.path "/recorder/api/") = false)
    (hnav : req.mode ≠ "navigate")
    (hst : strStartsWith req.path "/static/" = true)
    (hmiss : cachesMatch cs req.path = none)
    (hNnet : net reqN = some res)
    (hNm : reqN.method = "GET") (hNo : reqN.origin = o)
    (hNapi : (strStartsWith reqN.path "/api/" ||
      strStartsWith reqN.path "/recorder/api/") = false)
    (hNnav : reqN.mode = "navigate")
    (hP : reqP.method ≠ "GET") :
    (res.status ≠ 200 →
      (Swjs.networkFirst net putOk cs req).caches = ensureCache cs Swjs.PAGE_CACHE) ∧
    (res.status ≠ 200 →
      matchInCache (ensureCache cs Swjs.PAGE_CACHE) Swjs.PAGE_CACHE req.path = none →
      (Swjs.staleWhileRevalidate net putOk cs req).caches =
        ensureCache cs Swjs.PAGE_CACHE) ∧
    (Swjs.cacheFirst net true cs req).caches =
      putInCache cs Swjs.STATIC_CACHE req.path res ∧
    (SW.handleFetch o net true cs req).caches =
      putInCache cs SW.CACHE_NAME req.path res ∧
    (SW.handleFetch o net true cs reqN).caches =
      putInCache cs SW.CACHE_NAME reqN.path res ∧
    (SW.handleFetch o net putOk cs reqP).caches = cs ∧
    (Swjs.handleFetch o net putOk cs reqP).caches = cs := by
  refine ⟨?_, ?_, ?_, ?_, ?_, ?_, ?_⟩
  · intro h200
    simp [Swjs.networkFirst, hnet, h200]
  · intro h200 hpage
    simp [Swjs.staleWhileRevalidate, hnet, hpage, h200]
  · simp [Swjs.cacheFirst, hnet, hmiss]
  · have hguard : (strStartsWith req.path "/static/" ||
        decide (req.path = "/manifest.webmanifest")) = true := by
      simp [hst]
    simp [SW.handleFetch, hm, ho, hapi, hnav, hguard, hmiss, hnet]
  · simp [SW.handleFetch, hNm, hNo, hNapi, hNnav, hNnet]
  · simp [SW.handleFetch, hP]
  · by_cases ho' : reqP.origin = o <;> simp [Swjs.handleFetch, hP, ho']

/-- C5 witness: on a 404 against empty caches, the status-checked writers of
sw.js leave the cache unwritten while sw.js's cacheFirst and the v6 static
and navigation branches store the 404; a POST leaves both caches
unchanged. -/
theorem c5_witness :
    (Swjs.networkFirst Scenario.net404 true [] Scenario.staticReq).caches =
      ensureCache [] Swjs.PAGE_CACHE ∧
    (Swjs.staleWhileRevalidate Scenario.net404 true [] Scenario.staticReq).caches =
      ensureCache [] Swjs.PAGE_CACHE ∧
    (Swjs.cacheFirst Scenario.net404 true [] Scenario.staticReq).caches =
      putInCache [] Swjs.STATIC_CACHE "/static/app.css" ⟨404, "not found"⟩ ∧
    (SW.handleFetch Scenario.origin Scenario.net404 true [] Scenario.staticReq).caches =
      putInCache [] SW.CACHE_NAME "/static/app.css" ⟨404, "not found"⟩ ∧
    (SW.handleFetch Scenario.origin Scenario.net404 true [] Scenario.navReq).caches =
      putInCache [] SW.CACHE_NAME "/translate" ⟨404, "not found"⟩ ∧
    (SW.handleFetch Scenario.origin Scenario.net404 true [] Scenario.postReq).caches =
      ([] : CacheStorage) ∧
    (Swjs.handleFetch Scenario.origin Scenario.net404 true [] Scenario.postReq).caches =
      ([] : CacheStorage) := by
  have h := c5_writes_not_status_gated Scenario.origin Scenario.net404 true []
    Scenario.staticReq Scenario.navReq Scenario.postReq ⟨404, "not found"⟩ rfl
    (by decide) (by decide) (by decide) (by decide) (by decide) (by decide)
    rfl (by decide) (by decide) (by decide) (by decide) (by decide)
  exact ⟨h.1 (by decide), h.2.1 (by decide) (by decide), h.2.2.1, h.2.2.2.1,
    h.2.2.2.2.1, h.2.2.2.2.2.1, h.2.2.2.2.2.2⟩

/-- C6 counterexample: against a network on which every core asset resolves
with status 201 (a successful status that is not 200), the gada-v6 install
succeeds and the stored entry for `/` has status 201, not 200. -/
theorem c6_counterexample :
    Scenario.installEntryStatus Scenario.net201 "/" = some 201 ∧
    (SW.install Scenario.origin Scenario.net201 []).isSome = true := by
  exact ⟨by decide, by decide⟩

/-- C6 amended: after a successful install every URL of the core asset
manifest has an entry in the new generation's store with a successful (2xx,
`Response.ok`) status — `cache.addAll` rejects on any non-ok response, but
accepts any 2xx status, not only 200 — and if fetching any manifest URL fails
(rejected fetch or non-ok status), the install step rejects.  Both for
service-worker.js (gada-v6) and sw.js (gada-v3). -/
theorem c6_install_round_trip (o : String) (net : Network) (s s' : Store)
    (u : String) :
    (SW.install o net s = some s' →
      ∀ v ∈ SW.CORE_ASSETS, entryOk (storeMatch s' v) = true) ∧
    (u ∈ SW.CORE_ASSETS → fetchOk net o u = false → SW.install o net s = none) ∧
    (Swjs.install o net s = some s' →
      ∀ v ∈ Swjs.CORE_ASSETS, entryOk (storeMatch s' v) = true) ∧
    (u ∈ Swjs.CORE_ASSETS → fetchOk net o u = false → Swjs.install o net s = none) := by
  refine ⟨?_, ?_, ?_, ?_⟩
  · intro h v hv
    exact addAll_entryOk net o SW.CORE_ASSETS s s' h v hv
  · intro hu hf
    exact addAll_fail net o SW.CORE_ASSETS s u hu hf
  · intro h v hv
    exact addAll_entryOk net o Swjs.CORE_ASSETS s s' h v hv
  · intro hu hf
    exact addAll_fail net o Swjs.CORE_ASSETS s u hu hf

/-- C6 witness: with every asset resolving 200 the installed stores hold ok
entries for `/`, and with a dead network both installs reject. -/
theorem c6_witness :
    entryOk (storeMatch Scenario.trialStore "/") = true ∧
    SW.install Scenario.origin Scenario.netDown [] = none ∧
    entryOk (storeMatch Scenario.trialStoreSwjs "/") = true ∧
    Swjs.install Scenario.origin Scenario.netDown [] = none := by
  refine ⟨?_, ?_, ?_, ?_⟩
  · exact (c6_install_round_trip Scenario.origin Scenario.netOk []
      Scenario.trialStore "/").1 (by decide) "/" (by decide)
  · exact (c6_install_round_trip Scenario.origin Scenario.netDown [] [] "/").2.1
      (by decide) (by decide)
  · exact (c6_install_round_trip Scenario.origin Scenario.netOk []
      Scenario.trialStoreSwjs "/").2.2.1 (by decide) "/" (by decide)
  · exact (c6_install_round_trip Scenario.origin Scenario.netDown [] [] "/").2.2.2
      (by decide) (by decide)

/-- C7: static assets are cache-first in both workers — on a cache hit the
cached copy is returned with no network fetch and no write; on a miss the
network response is fetched, stored, and returned. -/
theorem c7_static_cache_first (o : String) (net : Network) (putOk : Bool)
    (cs : CacheStorage) (req : Request) (c res : Response)
    (hm : req.method = "GET") (ho : req.origin = o)
    (hapi : (strStartsWith req.path "/api/" ||
      strStartsWith req.path "/recorder/api/") = false)
    (hnav : req.mode ≠ "navigate")
    (hadm : (strStartsWith req.path "/admin" ||
      strStartsWith req.path "/dashboard") = false)
    (hst : strStartsWith req.path "/static/" = true) :
    (cachesMatch cs req.path = some c →
      SW.handleFetch o net putOk cs req = ⟨.respond (some c), cs, false, true⟩ ∧
      Swjs.handleFetch o net putOk cs req = ⟨.respond (some c), cs, false, true⟩) ∧
    (cachesMatch cs req.path = none → net req = some res →
      SW.handleFetch o net true cs req =
        ⟨.respond (some res), putInCache cs SW.CACHE_NAME req.path res, true, true⟩ ∧
      Swjs.handleFetch o net true cs req =
        ⟨.respond (some res), putInCache cs Swjs.STATIC_CACHE req.path res,
          true, true⟩) := by
  have hguard : (strStartsWith req.path "/static/" ||
      decide (req.path = "/manifest.webmanifest")) = true := by
    simp [hst]
  have hoff : req.path ≠ Swjs.OFFLINE_URL := by
    intro hoff
    rw [hoff] at hst
    exact absurd hst (by decide)
  constructor
  · intro hc
    constructor
    · simp [SW.handleFetch, hm, ho, hapi, hnav, hguard, hc]
    · simp [Swjs.handleFetch, ho, hm, hadm, hoff, hst, Swjs.cacheFirst, hc]
  · intro hc hnet
    constructor
    · simp [SW.handleFetch, hm, ho, hapi, hnav, hguard, hc, hnet]
    · simp [Swjs.handleFetch, ho, hm, hadm, hoff, hst, Swjs.cacheFirst, hc, hnet]

/-- C7 witness: a request for `/static/app.css` is served from the cache
with no fetch when cached, and fetched and stored when not. -/
theorem c7_witness :
    (SW.handleFetch Scenario.origin Scenario.netOk true Scenario.staticCachedCs
        Scenario.staticReq =
      ⟨.respond (some Scenario.cssCached), Scenario.staticCachedCs, false, true⟩ ∧
     Swjs.handleFetch Scenario.origin Scenario.netOk true Scenario.staticCachedCs
        Scenario.staticReq =
      ⟨.respond (some Scenario.cssCached), Scenario.staticCachedCs, false, true⟩) ∧
    (SW.handleFetch Scenario.origin Scenario.netOk true [] Scenario.staticReq =
      ⟨.respond (some ⟨200, "ok"⟩),
        putInCache [] SW.CACHE_NAME "/static/app.css" ⟨200, "ok"⟩, true, true⟩ ∧
     Swjs.handleFetch Scenario.origin Scenario.netOk true [] Scenario.staticReq =
      ⟨.respond (some ⟨200, "ok"⟩),
        putInCache [] Swjs.STATIC_CACHE "/static/app.css" ⟨200, "ok"⟩, true, true⟩) := by
  constructor
  · exact (c7_static_cache_first Scenario.origin Scenario.netOk true
      Scenario.staticCachedCs Scenario.staticReq Scenario.cssCached ⟨200, "ok"⟩
      (by decide) (by decide) (by decide) (by decide) (by decide) (by decide)).1
      (by decide)
  · exact (c7_static_cache_first Scenario.origin Scenario.netOk true
      [] Scenario.staticReq Scenario.cssCached ⟨200, "ok"⟩
      (by decide) (by decide) (by decide) (by decide) (by decide) (by decide)).2
      (by decide) rfl

/-- Every surviving entry of a gada-v6 activation carries the current cache
name. -/
theorem sw_activate_keys (cs : CacheStorage) :
    ∀ e ∈ SW.activate cs, e.1 = SW.CACHE_NAME := by
  induction cs with
  | nil => intro e he; simp [SW.activate] at he
  | cons kv rest ih =>
      obtain ⟨n, s⟩ := kv
      intro e he
      by_cases h : n = SW.CACHE_NAME
      · simp only [SW.activate] at he
        rw [if_pos h] at he
        rcases List.mem_cons.mp he with rfl | hr
        · exact h
        · exact ih e hr
      · simp only [SW.activate] at he
        rw [if_neg h] at he
        exact ih e he

/-- gada-v6 activation is idempotent. -/
theorem sw_activate_idem (cs : CacheStorage) :
    SW.activate (SW.activate cs) = SW.activate cs := by
  induction cs with
  | nil => rfl
  | cons kv rest ih =>
      obtain ⟨n, s⟩ := kv
      by_cases h : n = SW.CACHE_NAME <;> simp [SW.activate, h, ih]

/-- gada-v6 activation keeps the current generation's store. -/
theorem sw_activate_mem (cs : CacheStorage) (s : Store)
    (h : (SW.CACHE_NAME, s) ∈ cs) : (SW.CACHE_NAME, s) ∈ SW.activate cs := by
  induction cs with
  | nil => cases h
  | cons kv rest ih =>
      obtain ⟨n, t⟩ := kv
      rcases List.mem_cons.mp h with heq | hr
      · cases heq
        simp [SW.activate]
      · by_cases h' : n = SW.CACHE_NAME <;> simp [SW.activate, h', ih hr]

/-- Every surviving entry of a gada-v3 activation has a name of the current
version. -/
theorem swjs_activate_keys (cs : CacheStorage) :
    ∀ e ∈ Swjs.activate cs, strStartsWith e.1 Swjs.CACHE_VERSION = true := by
  induction cs with
  | nil => intro e he; simp [Swjs.activate] at he
  | cons kv rest ih =>
      obtain ⟨n, s⟩ := kv
      intro e he
      by_cases h : strStartsWith n Swjs.CACHE_VERSION = true
      · simp only [Swjs.activate] at he
        rw [if_pos h] at he
        rcases List.mem_cons.mp he with rfl | hr
        · exact h
        · exact ih e hr
      · simp only [Swjs.activate] at he
        rw [if_neg h] at he
        exact ih e he

/-- gada-v3 activation is idempotent. -/
theorem swjs_activate_idem (cs : CacheStorage) :
    Swjs.activate (Swjs.activate cs) = Swjs.activate cs := by
  induction cs with
  | nil => rfl
  | cons kv rest ih =>
      obtain ⟨n, s⟩ := kv
      by_cases h : strStartsWith n Swjs.CACHE_VERSION = true <;>
        simp [Swjs.activate, h, ih]

/-- C8: the activate step deletes every store whose key does not match the
current version, keeps the current generation's store, and is idempotent —
activating twice equals activating once, and afterwards every surviving
store carries the current version (gada-v6 keeps exactly the `gada-v6`
store; gada-v3 keeps exactly the stores named with the `gada-v3` version
prefix), so only the current generation remains for reads. -/
theorem c8_activate_purges_and_idempotent (cs : CacheStorage) (s : Store) :
    SW.activate (SW.activate cs) = SW.activate cs ∧
    (∀ e ∈ SW.activate cs, e.1 = SW.CACHE_NAME) ∧
    ((SW.CACHE_NAME, s) ∈ cs → (SW.CACHE_NAME, s) ∈ SW.activate cs) ∧
    Swjs.activate (Swjs.activate cs) = Swjs.activate cs ∧
    (∀ e ∈ Swjs.activate cs, strStartsWith e.1 Swjs.CACHE_VERSION = true) := by
  exact ⟨sw_activate_idem cs, sw_activate_keys cs, sw_activate_mem cs s,
    swjs_activate_idem cs, swjs_activate_keys cs⟩

/-- C8 witness: activating over three generations of caches keeps only the
current one, idempotently. -/
theorem c8_witness :
    SW.activate (SW.activate Scenario.demoCaches) = SW.activate Scenario.demoCaches ∧
    (SW.CACHE_NAME, ([] : Store)) ∈ SW.activate Scenario.demoCaches ∧
    Swjs.activate (Swjs.activate Scenario.demoCaches) =
      Swjs.activate Scenario.demoCaches := by
  have h := c8_activate_purges_and_idempotent Scenario.demoCaches []
  exact ⟨h.1, h.2.2.1 (by decide), h.2.2.2.1⟩

/-- The response chosen by sw.js's networkFirst does not depend on whether
the cache write succeeds. -/
theorem swjs_networkFirst_result_indep (net : Network) (p q : Bool)
    (cs : CacheStorage) (req : Request) :
    (Swjs.networkFirst net p cs req).result = (Swjs.networkFirst net q cs req).result := by
  unfold Swjs.networkFirst
  repeat' split
  all_goals rfl

/-- The response chosen by sw.js's cacheFirst does not depend on whether the
cache write succeeds. -/
theorem swjs_cacheFirst_result_indep (net : Network) (p q : Bool)
    (cs : CacheStorage) (req : Request) :
    (Swjs.cacheFirst net p cs req).result = (Swjs.cacheFirst net q cs req).result := by
  unfold Swjs.cacheFirst
  repeat' split
  all_goals rfl

/-- The response chosen by sw.js's staleWhileRevalidate does not depend on
whether the cache write succeeds. -/
theorem swjs_swr_result_indep (net : Network) (p q : Bool)
    (cs : CacheStorage) (req : Request) :
    (Swjs.staleWhileRevalidate net p cs req).result =
      (Swjs.staleWhileRevalidate net q cs req).result := by
  unfold Swjs.staleWhileRevalidate
  repeat' split
  all_goals rfl

/-- C9: the response delivered by either fetch listener does not depend on
whether the (fire-and-forget) cache write succeeds: the result is the same
whatever the value of the write-success flag. -/
theorem c9_cache_write_failure_transparent (o : String) (net : Network)
    (p q : Bool) (cs : CacheStorage) (req : Request) :
    (SW.handleFetch o net p cs req).result = (SW.handleFetch o net q cs req).result ∧
    (Swjs.handleFetch o net p cs req).result =
      (Swjs.handleFetch o net q cs req).result := by
  constructor
  · unfold SW.handleFetch
    repeat' split
    all_goals rfl
  · unfold Swjs.handleFetch
    repeat' split
    all_goals
      first
        | rfl
        | exact swjs_networkFirst_result_indep net p q cs req
        | exact swjs_cacheFirst_result_indep net p q cs req
        | exact swjs_swr_result_indep net p q cs req

/-- C10: the offline fallback path `/offline` is in the core asset manifest
of both workers, and after any successful install the new generation's store
holds an ok entry for it — the navigation fallback is always available. -/
theorem c10_offline_in_manifest (o : String) (net : Network) (s s' : Store) :
    "/offline" ∈ SW.CORE_ASSETS ∧
    Swjs.OFFLINE_URL ∈ Swjs.CORE_ASSETS ∧
    (SW.install o net s = some s' → entryOk (storeMatch s' "/offline") = true) ∧
    (Swjs.install o net s = some s' →
      entryOk (storeMatch s' Swjs.OFFLINE_URL) = true) := by
  refine ⟨by decide, by decide, ?_, ?_⟩
  · intro h
    exact addAll_entryOk net o SW.CORE_ASSETS s s' h "/offline" (by decide)
  · intro h
    exact addAll_entryOk net o Swjs.CORE_ASSETS s s' h Swjs.OFFLINE_URL (by decide)

/-- C10 witness: after the concrete successful installs, both stores hold an
ok entry for `/offline`. -/
theorem c10_witness :
    "/offline" ∈ SW.CORE_ASSETS ∧
    entryOk (storeMatch Scenario.trialStore "/offline") = true ∧
    entryOk (storeMatch Scenario.trialStoreSwjs "/offline") = true := by
  refine ⟨(c10_offline_in_manifest Scenario.origin Scenario.netOk [] []).1, ?_, ?_⟩
  · exact (c10_offline_in_manifest Scenario.origin Scenario.netOk []
      Scenario.trialStore).2.2.1 (by decide)
  · exact (c10_offline_in_manifest Scenario.origin Scenario.netOk []
      Scenario.trialStoreSwjs).2.2.2 (by decide)
